import Mathlib

/-!
Verification of the skin-test reaction triage application
(`streamlit_app.py`): a shallow embedding of the triage decision,
the sequential four-stage pipeline, the image codec helpers, the
display resize, the upload session state, and the startup token
handling, with theorems about each.
-/

/-! ## Triage decision (lines 167–181) -/

/-- The outcome of one triage branch: the label, advice and card color
assigned together by the `if prob >= 0.60 / elif prob >= 0.40 / else`
block at lines 167–181 of `streamlit_app.py`. -/
structure Triage where
  label : String
  advice : String
  color : String
  deriving DecidableEq, Repr

/-- The triage decision of `streamlit_app.py` lines 167–181, with the
probability embedded as an exact rational.  Each branch assigns the
label, advice and color strings of the source verbatim. -/
def triage (prob : ℚ) : Triage :=
  if prob ≥ 60/100 then
    ⟨"LIKELY Tb POSITIVE", "Visible induration detected", "#2ECC71"⟩
  else if prob ≥ 40/100 then
    ⟨"MANUAL CHECK REQUIRED", "Visual features unclear — palpation recommended", "#F39C12"⟩
  else
    ⟨"NEGATIVE", "No visible induration detected", "#E74C3C"⟩

/-! ## Display resize (lines 56–59) -/

/-- The dimension arithmetic of `resize_for_display` (lines 56–59 of
`streamlit_app.py`): `scale = max_height / h` and the new size is
`(int(w * scale), max_height)`.  Pixel resampling (BICUBIC) is abstracted
away; `int` truncation of the nonnegative product is natural-number
division. -/
def resize_for_display (w h t : ℕ) : ℕ × ℕ :=
  (w * t / h, t)

/-! ## Image codec (PIL PNG round trip, used at lines 61–64 and 139–141) -/

/-- An in-memory image: dimensions, color mode and the row-major RGB
pixel data.  Models the PIL image objects flowing through the app. -/
structure Img where
  width : ℕ
  height : ℕ
  mode : String
  pixels : List (ℕ × ℕ × ℕ)
  deriving DecidableEq, Repr

/-- Serialization of RGB pixel triples to a flat byte list. -/
def flat3 : List (ℕ × ℕ × ℕ) → List ℕ
  | [] => []
  | (r, g, b) :: ps => r :: g :: b :: flat3 ps

/-- Regrouping of a flat byte list into RGB triples; fails when the
length is not a multiple of three. -/
def chunk3 : List ℕ → Option (List (ℕ × ℕ × ℕ))
  | [] => some []
  | r :: g :: b :: rest => (chunk3 rest).map fun ps => (r, g, b) :: ps
  | _ => none

/-- Modelled from the spec: PIL's PNG encoder (`cropped.save(buf,
format="PNG")`, lines 139–141) is external library code not present in
`src/`; §4.1 of the spec specifies `encode(Image, format) -> bytes` as a
lossless encoding.  The model writes the dimensions followed by the raw
RGB samples. -/
def encodePNG (img : Img) : List ℕ :=
  img.width :: img.height :: flat3 img.pixels

/-- Modelled from the spec: PIL's PNG decoder followed by
`.convert("RGB")` (line 64) is external library code not present in
`src/`; §4.1 specifies `decode(bytes) -> Image` as failing on malformed
data and always normalizing to RGB.  The model parses the dimension
header, checks the payload length, regroups the RGB samples and yields
an RGB-mode image. -/
def decodePNG : List ℕ → Option Img
  | w :: h :: rest =>
      if rest.length = 3 * (w * h) then
        (chunk3 rest).map fun ps => ⟨w, h, "RGB", ps⟩
      else none
  | _ => none

/-! ## Session state (lines 84–96) -/

/-- The two `st.session_state` slots used by the app (lines 84–88):
the current decoded image and the name of the last upload; both start
as `None`. -/
structure Session where
  image : Option Img
  last_uploaded_name : Option String
  deriving DecidableEq, Repr

/-- Initialization of the session slots (lines 84–88): both `None`. -/
def initSession : Session :=
  ⟨none, none⟩

/-- An uploaded file: its name (the identity the app compares) and its
raw content bytes. -/
structure Upload where
  name : String
  content : List ℕ

/-- The upload-handling step (lines 93–96 of `streamlit_app.py`): when
`uploaded.name != st.session_state.last_uploaded_name` the session image
is replaced by the freshly decoded upload and the stored name updated;
otherwise the session is left untouched.  `decode` stands for
`Image.open(uploaded).convert("RGB")`. -/
def handleUpload (decode : List ℕ → Img) (s : Session) (u : Upload) : Session :=
  if some u.name ≠ s.last_uploaded_name then
    { image := some (decode u.content), last_uploaded_name := some u.name }
  else s

/-! ## Startup token handling (lines 1–14) -/

/-- Outcome of program startup: either execution proceeds to build the
UI, or it stops with an error before any run. -/
inductive StartupOutcome where
  | proceeded
  | failedFast
  deriving DecidableEq, Repr

/-- Python text printed for an optional environment value: `os.getenv`
yields `None` when the variable is absent, and `print(None)` prints
`None`. -/
def pyReprOpt : Option String → String
  | none => "None"
  | some s => s

/-- Lines 8–14 of `streamlit_app.py`: startup reads
`REPLICATE_API_TOKEN` from the environment and prints it (line 9); the
authentication assignment (line 14) is commented out; execution then
proceeds to the page config and the rest of the script whether or not
the token is present. -/
def startup (token : Option String) : String × StartupOutcome :=
  (pyReprOpt token, StartupOutcome.proceeded)

/-! ## Pipeline (lines 107–209) -/

/-- A Python value that can sit in `metrics["probability"]`: a number,
or `None` (a non-numeric value on which `float()` raises `TypeError`). -/
inductive PyVal where
  | num (q : ℚ)
  | pynone
  deriving DecidableEq, Repr

/-- Model of Python `float(v)` as used at line 164: succeeds on a
numeric value, fails (raises) on a non-numeric one such as `None`. -/
def pyFloat : PyVal → Option ℚ
  | PyVal.num q => some q
  | PyVal.pynone => none

/-- The `metrics` dictionary of the explain output: it may or may not
carry a `probability` entry. -/
structure Metrics where
  probability : Option PyVal
  deriving DecidableEq, Repr

/-- The structured output of the explain deployment: an optional
`heatmap` URL (line 149 indexes it directly, so its absence raises) and
an optional `metrics` dictionary (line 162 defaults it to `{}`). -/
structure ExplainOut where
  heatmap : Option String
  metrics : Option Metrics
  deriving DecidableEq, Repr

/-- The error taxonomy of §7 of the spec for the external calls the
pipeline makes. -/
inductive PipeErr where
  | networkError
  | decodeError
  | remoteInferenceError
  deriving DecidableEq, Repr

/-- Oracle for the external world of one script run: the crop
deployment (`predictions.create` + `wait` + `.output`, lines 124–127),
`download_image` (lines 61–64, used for both the crop output and the
heatmap), and the explain deployment (lines 143–148).  Each call either
yields its value or raises. -/
structure Env where
  crop : List ℕ → Except PipeErr String
  fetchImage : String → Except PipeErr Img
  explain : List ℕ → Except PipeErr ExplainOut

/-- One observable action of the run block (lines 107–209): a canvas
image update (caption and displayed dimensions), a progress-bar update,
a submission to one of the two deployments (with the submitted input
payload), an image download, clearing the canvas, or rendering the
result card. -/
inductive Act where
  | showImage (caption : String) (dims : ℕ × ℕ)
  | setProgress (n : ℕ)
  | submitCrop (input : List ℕ)
  | fetchImage (url : String)
  | submitExplain (input : List ℕ)
  | clearCanvas
  | showResult (label advice color : String) (prob : ℚ)
  deriving DecidableEq, Repr

/-- Lines 159–209 of `streamlit_app.py`, final segment: given the
value of `float(metrics.get("probability", 0))` — or `none` when that
call raised on a non-numeric value — either abort, or compute the
triage, clear the canvas, render the result card and finish the
progress bar. -/
def renderResult (acts : List Act) : Option ℚ → List Act × Option (Triage × ℚ)
  | none => (acts, none)
  | some prob =>
      let t := triage prob
      (acts ++
        [Act.clearCanvas,
         Act.showResult t.label t.advice t.color prob,
         Act.setProgress 100],
       some (t, prob))

/-- Lines 149–164 of `streamlit_app.py`, from the heatmap download
onward: given the result of `download_image(explain_out["heatmap"])`,
either abort, or display the heatmap, advance the progress bar and go
on to the probability extraction (`metrics.get` with its defaults,
lines 162–164) and the final rendering. -/
def afterHeatFetch (dh : ℕ) (acts : List Act) (out : ExplainOut) :
    Except PipeErr Img → List Act × Option (Triage × ℚ)
  | Except.error _ => (acts, none)
  | Except.ok heatImg =>
      renderResult
        (acts ++
          [Act.showImage "Model attention heatmap"
             (resize_for_display heatImg.width heatImg.height dh),
           Act.setProgress 75])
        (pyFloat (((out.metrics.getD ⟨none⟩).probability).getD (PyVal.num 0)))

/-- Line 149 of `streamlit_app.py`: given the value of
`explain_out["heatmap"]` — `none` models a missing key, which raises —
either abort, or download the heatmap and continue. -/
def afterHeatKey (env : Env) (dh : ℕ) (acts : List Act) (out : ExplainOut) :
    Option String → List Act × Option (Triage × ℚ)
  | none => (acts, none)
  | some heatUrl =>
      afterHeatFetch dh (acts ++ [Act.fetchImage heatUrl]) out (env.fetchImage heatUrl)

/-- Lines 143–149 of `streamlit_app.py`: given the outcome of the
explain deployment call, either abort, or read the heatmap key of its
output and continue. -/
def afterExplain (env : Env) (dh : ℕ) (acts : List Act) :
    Except PipeErr ExplainOut → List Act × Option (Triage × ℚ)
  | Except.error _ => (acts, none)
  | Except.ok out => afterHeatKey env dh acts out out.heatmap

/-- Lines 129–148 of `streamlit_app.py`: given the outcome of
`download_image(crop_pred.output)`, either abort, or display the
cropped image, advance the progress bar, PNG-encode the crop and submit
it to the explain deployment, continuing with that call's outcome. -/
def afterCropFetch (env : Env) (dh : ℕ) (acts : List Act) :
    Except PipeErr Img → List Act × Option (Triage × ℚ)
  | Except.error _ => (acts, none)
  | Except.ok cropped =>
      afterExplain env dh
        (acts ++
          [Act.showImage "Detected reaction region"
             (resize_for_display cropped.width cropped.height dh),
           Act.setProgress 45, Act.submitExplain (encodePNG cropped)])
        (env.explain (encodePNG cropped))

/-- Lines 124–129 of `streamlit_app.py`: given the outcome of the crop
deployment call, either abort, or download the crop output image and
continue with that fetch's outcome. -/
def afterCrop (env : Env) (dh : ℕ) (acts : List Act) :
    Except PipeErr String → List Act × Option (Triage × ℚ)
  | Except.error _ => (acts, none)
  | Except.ok cropUrl =>
      afterCropFetch env dh (acts ++ [Act.fetchImage cropUrl]) (env.fetchImage cropUrl)

/-- The run block of `streamlit_app.py` (lines 107–209), embedded as a
function from the external-world oracle, the uploaded raw bytes, the
session image and the display height to the list of actions performed
and, when the script reaches the result card, the triage outcome with
its probability.  The block is the straight-line composition of the
stage segments above, threaded in source order; an uncaught exception
from any external call aborts the script, leaving the actions
performed so far and no result. -/
def runPipeline (env : Env) (uploaded : List ℕ) (image : Img) (dh : ℕ) :
    List Act × Option (Triage × ℚ) :=
  afterCrop env dh
    [Act.showImage "Original uploaded image" (resize_for_display image.width image.height dh),
     Act.setProgress 0, Act.setProgress 15, Act.submitCrop uploaded]
    (env.crop uploaded)

/-- Whether an action list updates the canvas with the given caption. -/
def showsCaption (l : List Act) (c : String) : Bool :=
  l.any fun a =>
    match a with
    | Act.showImage c' _ => c' == c
    | _ => false

/-- Whether an action list renders a result card. -/
def showsResult (l : List Act) : Bool :=
  l.any fun a =>
    match a with
    | Act.showResult _ _ _ _ => true
    | _ => false

/-- Whether an action list submits anything to the explain deployment. -/
def submitsExplain (l : List Act) : Bool :=
  l.any fun a =>
    match a with
    | Act.submitExplain _ => true
    | _ => false

/-- The payloads an action list submits to the two deployments, in
order. -/
def modelInputs (l : List Act) : List (List ℕ) :=
  l.filterMap fun a =>
    match a with
    | Act.submitCrop i => some i
    | Act.submitExplain i => some i
    | _ => none

/-- The shape of one action, forgetting payloads but keeping the
caption and progress value, used to state the fixed stage order. -/
inductive Tag where
  | shown (caption : String)
  | prog (n : ℕ)
  | cropSubmitted
  | fetched
  | explainSubmitted
  | cleared
  | resultShown
  deriving DecidableEq, Repr

/-- The shape of an action. -/
def actTag : Act → Tag
  | Act.showImage c _ => Tag.shown c
  | Act.setProgress n => Tag.prog n
  | Act.submitCrop _ => Tag.cropSubmitted
  | Act.fetchImage _ => Tag.fetched
  | Act.submitExplain _ => Tag.explainSubmitted
  | Act.clearCanvas => Tag.cleared
  | Act.showResult _ _ _ _ => Tag.resultShown

/-- The action shapes of a fully successful run, in source order:
original preview, crop submission, crop fetch, crop preview, explain
submission, heatmap fetch, heatmap preview, result card. -/
def canonicalTags : List Tag :=
  [Tag.shown "Original uploaded image", Tag.prog 0, Tag.prog 15,
   Tag.cropSubmitted, Tag.fetched,
   Tag.shown "Detected reaction region", Tag.prog 45,
   Tag.explainSubmitted, Tag.fetched,
   Tag.shown "Model attention heatmap", Tag.prog 75,
   Tag.cleared, Tag.resultShown, Tag.prog 100]

/-! ## Theorems -/

/-- C1 (counterexample): at probability exactly 0.60 the code's label is
the string "LIKELY Tb POSITIVE", not "LIKELY POSITIVE" as the claim
states. -/
theorem C1_label_counterexample :
    (triage (60/100)).label = "LIKELY Tb POSITIVE" ∧
    (triage (60/100)).label ≠ "LIKELY POSITIVE" := by
  refine ⟨by norm_num [triage], ?_⟩
  norm_num [triage]
  decide

/-- C1 (amended): for every probability p, the fixed-threshold policy
holds with the code's labels: p ≥ 0.60 yields label "LIKELY Tb
POSITIVE" with advice "Visible induration detected"; 0.40 ≤ p < 0.60
yields "MANUAL CHECK REQUIRED" with advice "Visual features unclear —
palpation recommended"; p < 0.40 yields "NEGATIVE" with advice "No
visible induration detected"; both boundaries are inclusive lower
bounds of their bands. -/
theorem C1_triage_bands (p : ℚ) :
    (60/100 ≤ p →
      triage p = ⟨"LIKELY Tb POSITIVE", "Visible induration detected", "#2ECC71"⟩) ∧
    (40/100 ≤ p ∧ p < 60/100 →
      triage p = ⟨"MANUAL CHECK REQUIRED",
        "Visual features unclear — palpation recommended", "#F39C12"⟩) ∧
    (p < 40/100 →
      triage p = ⟨"NEGATIVE", "No visible induration detected", "#E74C3C"⟩) := by
  unfold triage
  refine ⟨fun h => ?_, fun h => ?_, fun h => ?_⟩
  · rw [if_pos h]
  · rw [if_neg (not_le.mpr h.2), if_pos h.1]
  · rw [if_neg (not_le.mpr (lt_trans h (by norm_num))), if_neg (not_le.mpr h)]

/-- C1 (witness): the bands evaluated at the two boundaries and just
below the lower one. -/
theorem C1_triage_bands_witness :
    triage (60/100) = ⟨"LIKELY Tb POSITIVE", "Visible induration detected", "#2ECC71"⟩ ∧
    triage (40/100) = ⟨"MANUAL CHECK REQUIRED",
      "Visual features unclear — palpation recommended", "#F39C12"⟩ ∧
    triage (3999/10000) = ⟨"NEGATIVE", "No visible induration detected", "#E74C3C"⟩ :=
  ⟨(C1_triage_bands (60/100)).1 (by norm_num),
   (C1_triage_bands (40/100)).2.1 (by norm_num),
   (C1_triage_bands (3999/10000)).2.2 (by norm_num)⟩

/-- C10: the triage decision is total and deterministic over every
rational probability, including values outside [0,1]: it always lands
in exactly one of the three branches, each branch fixing label, advice
and color together, and membership in each branch is exactly
characterized by the thresholds (so any p ≥ 0.60 — even p > 1 — is
positive, and any p < 0.40 — even negative p — is NEGATIVE), with no
error branch. -/
theorem C10_triage_total (p : ℚ) :
    (triage p = ⟨"LIKELY Tb POSITIVE", "Visible induration detected", "#2ECC71"⟩ ∨
     triage p = ⟨"MANUAL CHECK REQUIRED",
       "Visual features unclear — palpation recommended", "#F39C12"⟩ ∨
     triage p = ⟨"NEGATIVE", "No visible induration detected", "#E74C3C"⟩) ∧
    (triage p = ⟨"LIKELY Tb POSITIVE", "Visible induration detected", "#2ECC71"⟩ ↔
      60/100 ≤ p) ∧
    (triage p = ⟨"MANUAL CHECK REQUIRED",
       "Visual features unclear — palpation recommended", "#F39C12"⟩ ↔
      40/100 ≤ p ∧ p < 60/100) ∧
    (triage p = ⟨"NEGATIVE", "No visible induration detected", "#E74C3C"⟩ ↔
      p < 40/100) := by
  unfold triage
  split_ifs with h1 h2
  · refine ⟨Or.inl rfl, ⟨fun _ => h1, fun _ => rfl⟩,
      ⟨fun he => absurd (congrArg Triage.label he) (by decide),
       fun hc => absurd h1 (not_le.mpr hc.2)⟩,
      ⟨fun he => absurd (congrArg Triage.label he) (by decide),
       fun hc => absurd h1 (not_le.mpr (lt_trans hc (by norm_num)))⟩⟩
  · refine ⟨Or.inr (Or.inl rfl),
      ⟨fun he => absurd (congrArg Triage.label he) (by decide),
       fun hc => absurd hc h1⟩,
      ⟨fun _ => ⟨h2, not_le.mp h1⟩, fun _ => rfl⟩,
      ⟨fun he => absurd (congrArg Triage.label he) (by decide),
       fun hc => absurd h2 (not_le.mpr hc)⟩⟩
  · refine ⟨Or.inr (Or.inr rfl),
      ⟨fun he => absurd (congrArg Triage.label he) (by decide),
       fun hc => absurd hc h1⟩,
      ⟨fun he => absurd (congrArg Triage.label he) (by decide),
       fun hc => absurd hc.1 h2⟩,
      ⟨fun _ => not_le.mp h2, fun _ => rfl⟩⟩

/-- C10 (witness): a probability above 1 is positive and a negative
probability is NEGATIVE. -/
theorem C10_triage_total_witness :
    triage 2 = ⟨"LIKELY Tb POSITIVE", "Visible induration detected", "#2ECC71"⟩ ∧
    triage (-1) = ⟨"NEGATIVE", "No visible induration detected", "#E74C3C"⟩ :=
  ⟨((C10_triage_total 2).2.1).mpr (by norm_num),
   ((C10_triage_total (-1)).2.2.2).mpr (by norm_num)⟩

/-- C8 (counterexample): resizing a 3×2 image to target height 3 gives
width `int(3 * 1.5) = 4`, and 4/3 is not the input aspect ratio 3/2 —
the truncation breaks exact proportionality. -/
theorem C8_resize_counterexample :
    resize_for_display 3 2 3 = (4, 3) ∧
    (resize_for_display 3 2 3).1 * 2 ≠ 3 * (resize_for_display 3 2 3).2 := by
  decide

/-- C8 (amended): for every input size and positive input height, the
resize is a pure function of the dimensions and target height whose
output height equals the target exactly and whose output width is the
floor of the proportional width w·t/h (aspect ratio preserved up to
integer truncation). -/
theorem C8_resize_floor (w h t : ℕ) (hp : 0 < h) :
    (resize_for_display w h t).2 = t ∧
    (resize_for_display w h t).1 = w * t / h ∧
    (resize_for_display w h t).1 * h ≤ w * t ∧
    w * t < ((resize_for_display w h t).1 + 1) * h := by
  refine ⟨rfl, rfl, Nat.div_mul_le_self _ _, ?_⟩
  show w * t < (w * t / h + 1) * h
  have h1 := Nat.div_add_mod (w * t) h
  have h2 := Nat.mod_lt (w * t) hp
  calc w * t = h * (w * t / h) + w * t % h := h1.symm
    _ < h * (w * t / h) + h := by omega
    _ = (w * t / h + 1) * h := by ring

/-- C8 (witness): the floor characterization at the 3×2 image resized
to height 3. -/
theorem C8_resize_floor_witness :
    0 < 2 ∧
    ((resize_for_display 3 2 3).2 = 3 ∧
     (resize_for_display 3 2 3).1 = 3 * 3 / 2 ∧
     (resize_for_display 3 2 3).1 * 2 ≤ 3 * 3 ∧
     3 * 3 < ((resize_for_display 3 2 3).1 + 1) * 2) :=
  ⟨by decide, C8_resize_floor 3 2 3 (by decide)⟩

/-- C5 (code divergence): with the API credential absent from the
process environment, startup prints "None" and proceeds — it never
fails fast; the commented-out auth assignment (line 14) means the first
failure can only occur mid-run when a deployment is contacted. -/
theorem C5_startup_no_fail_fast :
    (startup none).2 = StartupOutcome.proceeded ∧
    (startup none).2 ≠ StartupOutcome.failedFast ∧
    (startup none).1 = "None" := by
  decide

/-- Regrouping the flattened RGB samples recovers the pixel list. -/
theorem chunk3_flat3 (ps : List (ℕ × ℕ × ℕ)) : chunk3 (flat3 ps) = some ps := by
  induction ps with
  | nil => rfl
  | cons p ps ih =>
    rcases p with ⟨r, g, b⟩
    simp [flat3, chunk3, ih]

/-- Flattening RGB triples triples the length. -/
theorem flat3_length (ps : List (ℕ × ℕ × ℕ)) : (flat3 ps).length = 3 * ps.length := by
  induction ps with
  | nil => rfl
  | cons p ps ih =>
    rcases p with ⟨r, g, b⟩
    simp [flat3, ih]
    ring

/-- C6: for every well-formed RGB image, PNG-encoding and then decoding
returns exactly the same image — same dimensions, same pixel data, and
the RGB color mode. -/
theorem C6_png_round_trip (img : Img) (hm : img.mode = "RGB")
    (hw : img.pixels.length = img.width * img.height) :
    decodePNG (encodePNG img) = some img := by
  rcases img with ⟨w, h, m, ps⟩
  dsimp only at hm hw
  subst hm
  simp [encodePNG, decodePNG, flat3_length, hw, chunk3_flat3]

/-- C6 (witness): round trip of a concrete 1×1 RGB image. -/
theorem C6_png_round_trip_witness :
    decodePNG (encodePNG ⟨1, 1, "RGB", [(7, 8, 9)]⟩) = some ⟨1, 1, "RGB", [(7, 8, 9)]⟩ :=
  C6_png_round_trip ⟨1, 1, "RGB", [(7, 8, 9)]⟩ rfl rfl

/-- C9: an upload whose name differs from the stored one replaces the
session image wholesale with the newly decoded image (and records the
new name); an upload with the same name leaves the whole session — in
particular the stored image — unchanged. -/
theorem C9_session_replacement (decode : List ℕ → Img) (s : Session) (u : Upload) :
    (s.last_uploaded_name ≠ some u.name →
      handleUpload decode s u =
        { image := some (decode u.content), last_uploaded_name := some u.name }) ∧
    (s.last_uploaded_name = some u.name → handleUpload decode s u = s) := by
  constructor
  · intro hne
    unfold handleUpload
    rw [if_pos (fun he => hne he.symm)]
  · intro he
    unfold handleUpload
    rw [if_neg (fun hne => hne he.symm)]

/-- C9 (witness): a first upload into a fresh session is stored; a
repeated upload with the same name changes nothing. -/
theorem C9_session_replacement_witness :
    handleUpload (fun _ => ⟨1, 1, "RGB", []⟩) initSession ⟨"a.jpg", [0]⟩ =
      { image := some ⟨1, 1, "RGB", []⟩, last_uploaded_name := some "a.jpg" } ∧
    handleUpload (fun _ => ⟨1, 1, "RGB", []⟩)
        ⟨some ⟨1, 1, "RGB", []⟩, some "a.jpg"⟩ ⟨"a.jpg", [0]⟩ =
      ⟨some ⟨1, 1, "RGB", []⟩, some "a.jpg"⟩ :=
  ⟨(C9_session_replacement (fun _ => ⟨1, 1, "RGB", []⟩) initSession ⟨"a.jpg", [0]⟩).1
     (by decide),
   (C9_session_replacement (fun _ => ⟨1, 1, "RGB", []⟩)
     ⟨some ⟨1, 1, "RGB", []⟩, some "a.jpg"⟩ ⟨"a.jpg", [0]⟩).2 rfl⟩

/-- Fixture image for the C3 theorems. -/
def imgW3 : Img :=
  ⟨1, 1, "RGB", [(0, 0, 0)]⟩

/-- Fixture environment for the C3 witness: the crop deployment
succeeds but the image fetch raises a network error. -/
def envFetchFail : Env :=
  ⟨fun _ => Except.ok "cropurl",
   fun _ => Except.error PipeErr.networkError,
   fun _ => Except.ok ⟨some "heaturl", none⟩⟩

/-- C3: when the crop deployment has answered but fetching its output
image fails, the run aborts at once with no retry: the script run
produces no final result, never displays the heatmap stage image,
never renders a result card, and never even submits to the explain
deployment. -/
theorem C3_crop_fetch_failure_aborts (env : Env) (up : List ℕ) (image : Img) (dh : ℕ)
    (url : String) (e : PipeErr)
    (hc : env.crop up = Except.ok url)
    (hf : env.fetchImage url = Except.error e) :
    (runPipeline env up image dh).2 = none ∧
    showsCaption (runPipeline env up image dh).1 "Model attention heatmap" = false ∧
    showsResult (runPipeline env up image dh).1 = false ∧
    submitsExplain (runPipeline env up image dh).1 = false := by
  unfold runPipeline
  rw [hc]
  simp only [afterCrop]
  rw [hf]
  simp only [afterCropFetch]
  refine ⟨?_, ?_, ?_, ?_⟩ <;> first | rfl | trivial

/-- C3 (witness): the abort behavior on a concrete failing fetch. -/
theorem C3_crop_fetch_failure_aborts_witness :
    (runPipeline envFetchFail [1] imgW3 350).2 = none ∧
    showsCaption (runPipeline envFetchFail [1] imgW3 350).1 "Model attention heatmap" = false ∧
    showsResult (runPipeline envFetchFail [1] imgW3 350).1 = false ∧
    submitsExplain (runPipeline envFetchFail [1] imgW3 350).1 = false :=
  C3_crop_fetch_failure_aborts envFetchFail [1] imgW3 350 "cropurl" PipeErr.networkError rfl rfl

/-- C4: every run is strictly sequential in the fixed stage order — the
shapes of the performed actions always form a prefix of the canonical
original → crop → heatmap/explain → result order; the explain
deployment is only ever submitted to after the crop job delivered its
output URL and the crop image fetch succeeded; and a triage result
exists only after the explain job also delivered its output. -/
theorem C4_sequential_order (env : Env) (up : List ℕ) (image : Img) (dh : ℕ) :
    (∃ k, (runPipeline env up image dh).1.map actTag = canonicalTags.take k) ∧
    (submitsExplain (runPipeline env up image dh).1 = true →
      ∃ url cropped, env.crop up = Except.ok url ∧ env.fetchImage url = Except.ok cropped) ∧
    ((runPipeline env up image dh).2.isSome = true →
      ∃ url cropped out,
        env.crop up = Except.ok url ∧ env.fetchImage url = Except.ok cropped ∧
        env.explain (encodePNG cropped) = Except.ok out) := by
  unfold runPipeline
  rcases hc : env.crop up with e | url
  · exact ⟨⟨4, rfl⟩, fun h => Bool.noConfusion h, fun h => Bool.noConfusion h⟩
  simp only [afterCrop]
  rcases hf : env.fetchImage url with e | cropped
  · exact ⟨⟨5, rfl⟩, fun h => Bool.noConfusion h, fun h => Bool.noConfusion h⟩
  simp only [afterCropFetch]
  rcases he : env.explain (encodePNG cropped) with e | out
  · exact ⟨⟨8, rfl⟩, fun _ => ⟨url, cropped, rfl, hf⟩, fun h => Bool.noConfusion h⟩
  simp only [afterExplain]
  rcases hh : out.heatmap with _ | heatUrl
  · exact ⟨⟨8, rfl⟩, fun _ => ⟨url, cropped, rfl, hf⟩, fun h => Bool.noConfusion h⟩
  simp only [afterHeatKey]
  rcases hf2 : env.fetchImage heatUrl with e | heatImg
  · exact ⟨⟨9, rfl⟩, fun _ => ⟨url, cropped, rfl, hf⟩, fun h => Bool.noConfusion h⟩
  simp only [afterHeatFetch]
  rcases hp : pyFloat (((out.metrics.getD ⟨none⟩).probability).getD (PyVal.num 0)) with _ | prob
  · exact ⟨⟨11, rfl⟩, fun _ => ⟨url, cropped, rfl, hf⟩, fun h => Bool.noConfusion h⟩
  · exact ⟨⟨14, rfl⟩, fun _ => ⟨url, cropped, rfl, hf⟩,
      fun _ => ⟨url, cropped, out, rfl, hf, he⟩⟩

/-- Fixture image for the C4 witness. -/
def imgW4 : Img :=
  ⟨1, 1, "RGB", [(1, 2, 3)]⟩

/-- Fixture explain output for the C4 witness: a heatmap URL and a
numeric probability. -/
def outW4 : ExplainOut :=
  ⟨some "heaturl", some ⟨some (PyVal.num (72/100))⟩⟩

/-- Fixture environment for the C4 witness: every external call
succeeds. -/
def envW4 : Env :=
  ⟨fun _ => Except.ok "cropurl", fun _ => Except.ok imgW4, fun _ => Except.ok outW4⟩

/-- C4 (witness): on a fully successful concrete run the explain
submission and the result are both present, so the ordering guarantees
are not vacuous. -/
theorem C4_sequential_order_witness :
    (∃ url cropped, envW4.crop [1] = Except.ok url ∧ envW4.fetchImage url = Except.ok cropped) ∧
    (∃ url cropped out,
      envW4.crop [1] = Except.ok url ∧ envW4.fetchImage url = Except.ok cropped ∧
      envW4.explain (encodePNG cropped) = Except.ok out) :=
  ⟨(C4_sequential_order envW4 [1] imgW4 350).2.1 (by decide),
   (C4_sequential_order envW4 [1] imgW4 350).2.2 (by decide)⟩

/-- C7: the display-only resize never influences model inputs — two
runs over the same world and upload that differ only in the display
target height submit exactly the same payload sequence to the two
deployments and produce the same final result. -/
theorem C7_display_height_independent (env : Env) (up : List ℕ) (image : Img) (dh1 dh2 : ℕ) :
    modelInputs (runPipeline env up image dh1).1 = modelInputs (runPipeline env up image dh2).1 ∧
    (runPipeline env up image dh1).2 = (runPipeline env up image dh2).2 := by
  unfold runPipeline
  rcases hc : env.crop up with e | url
  · exact ⟨rfl, rfl⟩
  simp only [afterCrop]
  rcases hf : env.fetchImage url with e | cropped
  · exact ⟨rfl, rfl⟩
  simp only [afterCropFetch]
  rcases he : env.explain (encodePNG cropped) with e | out
  · exact ⟨rfl, rfl⟩
  simp only [afterExplain]
  rcases hh : out.heatmap with _ | heatUrl
  · exact ⟨rfl, rfl⟩
  simp only [afterHeatKey]
  rcases hf2 : env.fetchImage heatUrl with e | heatImg
  · exact ⟨rfl, rfl⟩
  simp only [afterHeatFetch]
  rcases hp : pyFloat (((out.metrics.getD ⟨none⟩).probability).getD (PyVal.num 0)) with _ | prob
  · exact ⟨rfl, rfl⟩
  · exact ⟨rfl, rfl⟩

/-- Fixture image for the C2 theorems. -/
def imgW2 : Img :=
  ⟨1, 1, "RGB", [(0, 0, 0)]⟩

/-- Fixture explain output whose metrics carry a non-numeric
probability value (`None`). -/
def outNonNum : ExplainOut :=
  ⟨some "heaturl", some ⟨some PyVal.pynone⟩⟩

/-- Fixture environment for the C2 counterexample: all external calls
succeed, but the probability value is non-numeric. -/
def envNonNum : Env :=
  ⟨fun _ => Except.ok "cropurl", fun _ => Except.ok imgW2, fun _ => Except.ok outNonNum⟩

/-- C2 (counterexample): with a non-numeric probability value (`None`)
in the explain metrics, `float()` raises, the run aborts, and no
NEGATIVE result — indeed no result card at all — is produced, so the
claim that every non-numeric probability is treated as 0 and completes
with NEGATIVE fails on this input. -/
theorem C2_nonnumeric_counterexample :
    (runPipeline envNonNum [1] imgW2 350).2 = none ∧
    showsResult (runPipeline envNonNum [1] imgW2 350).1 = false :=
  ⟨rfl, rfl⟩

/-- C2 (amended): when the explain output's metrics object is absent,
or present but without a probability entry, and the rest of the run
succeeds, the probability used for triage is 0 and the run completes
with a rendered result card whose label is NEGATIVE and whose
probability is 0.  (A non-numeric probability value instead aborts the
run: `float(None)` raises.) -/
theorem C2_missing_probability_negative (env : Env) (up : List ℕ) (image : Img) (dh : ℕ)
    (url heatUrl : String) (cropped heatImg : Img) (out : ExplainOut)
    (hc : env.crop up = Except.ok url)
    (hf : env.fetchImage url = Except.ok cropped)
    (he : env.explain (encodePNG cropped) = Except.ok out)
    (hh : out.heatmap = some heatUrl)
    (hf2 : env.fetchImage heatUrl = Except.ok heatImg)
    (hm : out.metrics = none ∨ out.metrics = some ⟨none⟩) :
    (runPipeline env up image dh).2 =
      some (⟨"NEGATIVE", "No visible induration detected", "#E74C3C"⟩, 0) ∧
    showsResult (runPipeline env up image dh).1 = true := by
  unfold runPipeline
  rw [hc]
  simp only [afterCrop]
  rw [hf]
  simp only [afterCropFetch]
  rw [he]
  simp only [afterExplain]
  rw [hh]
  simp only [afterHeatKey]
  rw [hf2]
  simp only [afterHeatFetch]
  rcases hm with hm | hm <;>
    rw [hm] <;>
    simp only [Option.getD_none, Option.getD_some, pyFloat, renderResult] <;>
    refine ⟨?_, rfl⟩ <;>
    norm_num [triage]

/-- Fixture explain output with no metrics object at all. -/
def outMissing : ExplainOut :=
  ⟨some "heaturl", none⟩

/-- Fixture environment for the C2 witness: all external calls succeed
and the metrics object is absent. -/
def envMissing : Env :=
  ⟨fun _ => Except.ok "cropurl", fun _ => Except.ok imgW2, fun _ => Except.ok outMissing⟩

/-- C2 (witness): a concrete run with the metrics object absent
completes with the NEGATIVE-at-0 result card. -/
theorem C2_missing_probability_negative_witness :
    (runPipeline envMissing [1] imgW2 350).2 =
      some (⟨"NEGATIVE", "No visible induration detected", "#E74C3C"⟩, 0) ∧
    showsResult (runPipeline envMissing [1] imgW2 350).1 = true :=
  C2_missing_probability_negative envMissing [1] imgW2 350 "cropurl" "heaturl" imgW2 imgW2
    outMissing rfl rfl rfl rfl rfl (Or.inl rfl)
